import Mathlib

/-!
Shallow embedding of the pretix MTN Mobile Money payment plugin
(package pretix_mtn_momo: payment.py, views.py, signals.py, tasks.py)
and proofs about its reconciliation, token-cache, webhook and periodic
sweep behaviour.

Modelling conventions:
- Python dicts with string keys (provider responses, the info_data blob
  stored on payments and refunds, the token response) are association
  lists over a small JSON-scalar type; lookup is first-match.
- Machine state that Django mutates in place (the payment or refund row,
  the shared token cache) is passed explicitly; every embedded function
  returns the updated state.
- A Python exception that escapes a function is an explicit error value
  carried next to the final state (mutations made before the raise are
  kept, matching how Django ORM objects behave).
- Network traffic is an oracle parameter: each outbound HTTP request is
  resolved by an HttpOutcome argument (transport error / 2xx with body),
  and the requests a run performs are recorded in an event trace.
- Wall-clock time is an integer number of seconds.
-/

/-- JSON scalar values occurring in provider responses and in the stored
provider-data blobs (strings such as "status" values, integers such as
"expires_in"). -/
inductive JVal
  | s (v : String)
  | i (v : Int)
deriving Repr, DecidableEq

/-- Python dict with string keys, as an association list; lookup is
first-match. -/
abbrev Dict := List (String × JVal)

/-- Python subscript lookup d[k]; none models the KeyError case. -/
def dget (d : Dict) (k : String) : Option JVal :=
  (d.find? (fun kv => kv.1 == k)).map (fun kv => kv.2)

/-- Python dict merge of a and b with b winning on key clashes, modelled
up to key order (lookup-equivalent to the Python result, whose iteration
order differs). -/
def dmerge (a b : Dict) : Dict :=
  a.filter (fun kv => (b.find? (fun kv2 => kv2.1 == kv.1)).isNone) ++ b

/-- Python exceptions that can escape the embedded code paths. -/
inductive PyErr
  | keyError (k : String)
  | typeError (k : String)
  | requestException (msg : String)
  | paymentException (msg : JVal)
deriving Repr, DecidableEq

/-- pretix OrderPayment states (pretix.base.models.OrderPayment). -/
inductive PaymentState
  | created
  | pending
  | confirmed
  | canceled
  | failed
  | refunded
deriving Repr, DecidableEq

/-- pretix OrderRefund states (pretix.base.models.OrderRefund). -/
inductive RefundState
  | created
  | transit
  | external
  | done
  | failed
  | canceled
deriving Repr, DecidableEq

/-- The slice of a pretix OrderPayment row this plugin reads and writes:
primary key, owning provider identifier, state, the info_data JSON blob,
and the creation timestamp used by the periodic sweep. -/
structure OrderPayment where
  pk : Nat
  provider : String
  state : PaymentState
  info : Dict
  created : Int
deriving Repr, DecidableEq

/-- The slice of a pretix OrderRefund row this plugin reads and writes. -/
structure OrderRefund where
  pk : Nat
  provider : String
  state : RefundState
  info : Dict
  created : Int
deriving Repr, DecidableEq

/-- Host-platform operation OrderPayment.confirm(). Modelled from the spec:
the host marks the payment confirmed, and confirming an already-confirmed
payment is safe at the state level. -/
def OrderPayment.confirm (p : OrderPayment) : OrderPayment :=
  { p with state := PaymentState.confirmed }

/-- Host-platform operation OrderPayment.fail(info=...). Modelled from the
spec: the host marks the payment failed and stores the given info blob. -/
def OrderPayment.fail (p : OrderPayment) (info : Dict) : OrderPayment :=
  { p with state := PaymentState.failed, info := info }

/-- Host-platform operation OrderRefund.done(). Modelled from the spec:
the host marks the refund done. -/
def OrderRefund.done (r : OrderRefund) : OrderRefund :=
  { r with state := RefundState.done }

/-- One entry of the Django cache: key, cached value, absolute expiry
instant (set-time plus the time-to-live passed to cache.set). -/
structure CacheEntry where
  key : String
  value : Dict
  expiresAt : Int
deriving Repr, DecidableEq

/-- The shared Django cache, restricted to the dict-valued entries this
plugin stores. -/
abbrev CacheState := List CacheEntry

/-- Django cache.get at time now: an entry is returned while the current
time is strictly below its expiry instant. -/
def cacheGet (c : CacheState) (now : Int) (k : String) : Option Dict :=
  (c.find? (fun e => e.key == k && decide (now < e.expiresAt))).map (fun e => e.value)

/-- Django cache.set with a relative timeout: replaces any previous entry
under the same key and expires at now + ttl. -/
def cacheSet (c : CacheState) (now : Int) (k : String) (v : Dict) (ttl : Int) : CacheState :=
  { key := k, value := v, expiresAt := now + ttl } :: c.filter (fun e => !(e.key == k))

/-- Outcome of one outbound HTTP request, resolved by the environment:
either requests raised a RequestException (connection failure, or
raise_for_status on a non-2xx response), or the request succeeded with
the given JSON body. -/
inductive HttpOutcome
  | transportError (msg : String)
  | ok (body : Dict)
deriving Repr, DecidableEq

/-- The per-merchant plugin settings read by payment.py
(SettingsSandbox("payment", "mtn_momo", event)). -/
structure Settings where
  baseurl : String
  environment : String
  api_user_id : String
  api_secret : String
  subscription_key : String
  refund_subscription_key : String
deriving Repr, DecidableEq

/-- Events recorded by an execution: outbound network requests and
persistence or dispatch steps whose relative order the claims talk
about. -/
inductive Ev
  | netTokenPost (url : String)
  | netChargePost (url : String)
  | persistInfo (info : Dict)
  | persistState (st : PaymentState)
  | callUpdatePayment
deriving Repr, DecidableEq

/-- Network events (outbound HTTP requests) among the recorded events. -/
def isNetEv : Ev → Bool
  | Ev.netTokenPost _ => true
  | Ev.netChargePost _ => true
  | _ => false

/-- Stand-in for urllib.parse.urljoin as used here (always with an
absolute path as second argument): it records which base URL and which
path the request targets. No claim depends on the string structure of
the resolved URL, only on which base flows into it. -/
def urljoin (base path : String) : String :=
  base ++ path

/-- Stand-in for hashlib.sha256(x).hexdigest(). The claims about
get_token depend only on the digest being a deterministic function of
its input string (that is, on which credential fields feed it), never on
the digest value itself, so the digest is modelled as the input string. -/
def sha256_hexdigest (input : String) : String :=
  input

/-- Cache key computed by get_token: the fixed prefix plus the digest of
"".join([subscription_key, api_user_id, api_secret, api]). The base URL
is not part of the digest input. -/
def token_cache_key (subscription_key api_user_id api_secret api : String) : String :=
  "pretix_mtn_momo_token_hash_" ++
    sha256_hexdigest (subscription_key ++ api_user_id ++ api_secret ++ api)

/-- Result of one get_token call: the returned access token (none when an
exception escaped), the cache after the call, the trace of network
requests performed, and the escaped exception if any. -/
structure GetTokenOut where
  ret : Option JVal
  cache : CacheState
  trace : List Ev
  err : Option PyErr
deriving Repr, DecidableEq

/-- The fetch path of get_token (shared tail of the two cache-miss
branches): POST {base_url}/{api}/token/, raise_for_status, read the JSON
body, cache it under key with timeout expires_in - 120, and return its
access_token. A missing expires_in or access_token key is a KeyError; a
non-integer expires_in makes the subtraction a TypeError. -/
def get_token_fetch (net : HttpOutcome) (now : Int) (c : CacheState)
    (key base_url api : String) : GetTokenOut :=
  let url := urljoin base_url ("/" ++ api ++ "/token/")
  match net with
  | HttpOutcome.transportError msg =>
    { ret := none, cache := c, trace := [Ev.netTokenPost url],
      err := some (PyErr.requestException msg) }
  | HttpOutcome.ok resp =>
    match dget resp "expires_in" with
    | none =>
      { ret := none, cache := c, trace := [Ev.netTokenPost url],
        err := some (PyErr.keyError "expires_in") }
    | some (JVal.s _) =>
      { ret := none, cache := c, trace := [Ev.netTokenPost url],
        err := some (PyErr.typeError "expires_in") }
    | some (JVal.i n) =>
      match dget resp "access_token" with
      | some v =>
        { ret := some v, cache := cacheSet c now key resp (n - 120),
          trace := [Ev.netTokenPost url], err := none }
      | none =>
        { ret := none, cache := cacheSet c now key resp (n - 120),
          trace := [Ev.netTokenPost url], err := some (PyErr.keyError "access_token") }

/-- get_token from payment.py. Looks the hashed credential key up in the
shared cache; a present and truthy (non-empty) cached dict is returned
without any network request or expiry re-check; otherwise the token is
fetched and cached. The Python default for the api argument is
"collection"; callers here always pass it explicitly. -/
def get_token (net : HttpOutcome) (now : Int) (c : CacheState)
    (base_url subscription_key api_user_id api_secret api : String) : GetTokenOut :=
  match cacheGet c now (token_cache_key subscription_key api_user_id api_secret api) with
  | some th =>
    if th = ([] : Dict) then
      get_token_fetch net now c
        (token_cache_key subscription_key api_user_id api_secret api) base_url api
    else
      match dget th "access_token" with
      | some v => { ret := some v, cache := c, trace := [], err := none }
      | none =>
        { ret := none, cache := c, trace := [],
          err := some (PyErr.keyError "access_token") }
  | none =>
    get_token_fetch net now c
      (token_cache_key subscription_key api_user_id api_secret api) base_url api

/-- Result of one _update_payment call: the payment row after the call,
the cache after the call, and the exception that escaped, if any. -/
structure UpdPayOut where
  payment : OrderPayment
  cache : CacheState
  err : Option PyErr
deriving Repr, DecidableEq

/-- MTNMoMo._update_payment from payment.py. Reads the stored reference
(KeyError when absent, before the try block), acquires a collection-API
token and GETs the charge status inside a try that catches only
RequestException (logged, everything left unchanged). On a response, the
SUCCESSFUL check (merge, save, confirm) and the FAILED-or-else check
(fail with merged info when created or pending, else merge and save) are
two independent conditionals, exactly as in the source. tokenNet and
statusNet resolve the token POST and the status GET respectively. -/
def _update_payment (tokenNet statusNet : HttpOutcome) (now : Int) (c : CacheState)
    (s : Settings) (payment : OrderPayment) : UpdPayOut :=
  match dget payment.info "reference" with
  | none => { payment := payment, cache := c, err := some (PyErr.keyError "reference") }
  | some _reference =>
    let tok := get_token tokenNet now c s.baseurl s.subscription_key
      s.api_user_id s.api_secret "collection"
    match tok.err with
    | some e =>
      match e with
      | PyErr.requestException _ => { payment := payment, cache := tok.cache, err := none }
      | _ => { payment := payment, cache := tok.cache, err := some e }
    | none =>
      match statusNet with
      | HttpOutcome.transportError _ => { payment := payment, cache := tok.cache, err := none }
      | HttpOutcome.ok d =>
        match dget d "status" with
        | none => { payment := payment, cache := tok.cache, err := some (PyErr.keyError "status") }
        | some status =>
          let payment1 :=
            if status = JVal.s "SUCCESSFUL" then
              OrderPayment.confirm { payment with info := dmerge payment.info d }
            else payment
          if status = JVal.s "FAILED" ∧
              (payment1.state = PaymentState.created ∨ payment1.state = PaymentState.pending) then
            { payment := payment1.fail (dmerge payment1.info d), cache := tok.cache, err := none }
          else
            { payment := { payment1 with info := dmerge payment1.info d },
              cache := tok.cache, err := none }

/-- Result of one _update_refund call. -/
structure UpdRefOut where
  refund : OrderRefund
  cache : CacheState
  err : Option PyErr
deriving Repr, DecidableEq

/-- MTNMoMo._update_refund from payment.py. Same shape as _update_payment
but against the disbursement API family, with OrderRefund.done() in the
SUCCESSFUL branch and, in the FAILED branch on a created or in-transit
refund, raise PaymentException(d["reason"]) instead of a state change. -/
def _update_refund (tokenNet statusNet : HttpOutcome) (now : Int) (c : CacheState)
    (s : Settings) (refund : OrderRefund) : UpdRefOut :=
  match dget refund.info "reference" with
  | none => { refund := refund, cache := c, err := some (PyErr.keyError "reference") }
  | some _reference =>
    let tok := get_token tokenNet now c s.baseurl s.refund_subscription_key
      s.api_user_id s.api_secret "disbursement"
    match tok.err with
    | some e =>
      match e with
      | PyErr.requestException _ => { refund := refund, cache := tok.cache, err := none }
      | _ => { refund := refund, cache := tok.cache, err := some e }
    | none =>
      match statusNet with
      | HttpOutcome.transportError _ => { refund := refund, cache := tok.cache, err := none }
      | HttpOutcome.ok d =>
        match dget d "status" with
        | none => { refund := refund, cache := tok.cache, err := some (PyErr.keyError "status") }
        | some status =>
          let refund1 :=
            if status = JVal.s "SUCCESSFUL" then
              OrderRefund.done { refund with info := dmerge refund.info d }
            else refund
          if status = JVal.s "FAILED" ∧
              (refund1.state = RefundState.created ∨ refund1.state = RefundState.transit) then
            match dget d "reason" with
            | some reason => { refund := refund1, cache := tok.cache,
                               err := some (PyErr.paymentException reason) }
            | none => { refund := refund1, cache := tok.cache,
                        err := some (PyErr.keyError "reason") }
          else
            { refund := { refund1 with info := dmerge refund1.info d },
              cache := tok.cache, err := none }

/-- User-facing message of the PaymentException raised by execute_payment
on a transport failure; the two adjacent source string literals
concatenate without a space, which is reproduced verbatim. -/
def commErrorMessage : String :=
  "We had trouble communicating with the payment service. Please try again andget in touch with us if this problem persists."

/-- Result of one execute_payment call: payment row, cache, whether the
session-held MSISDN was deleted, the escaped exception if any, and the
event trace of the run. -/
structure ExecPayOut where
  payment : OrderPayment
  cache : CacheState
  msisdnCleared : Bool
  err : Option PyErr
  trace : List Ev
deriving Repr, DecidableEq

/-- MTNMoMo.execute_payment from payment.py. The fresh str(uuid.uuid4())
is the refid argument. The function overwrites the payment's info_data
with the reference and saves it, then inside a try/except/else acquires
a token and POSTs the charge; on RequestException it fails the payment
with the reference and error string and raises a generic
PaymentException (so the trailing self._update_payment line is NOT
reached); on success it clears the session MSISDN, sets the state to
pending, saves, and falls through to self._update_payment. tokenNet1 and
chargeNet resolve execute_payment's own requests, tokenNet2 and
statusNet those of the trailing _update_payment call. -/
def execute_payment (refid : String) (tokenNet1 chargeNet tokenNet2 statusNet : HttpOutcome)
    (now : Int) (c : CacheState) (s : Settings) (payment : OrderPayment) : ExecPayOut :=
  let payment1 : OrderPayment := { payment with info := [("reference", JVal.s refid)] }
  let tok := get_token tokenNet1 now c s.baseurl s.subscription_key
    s.api_user_id s.api_secret "collection"
  match tok.err with
  | some e =>
    match e with
    | PyErr.requestException m =>
      { payment := payment1.fail [("reference", JVal.s refid), ("error", JVal.s m)],
        cache := tok.cache, msisdnCleared := false,
        err := some (PyErr.paymentException (JVal.s commErrorMessage)),
        trace := Ev.persistInfo [("reference", JVal.s refid)] :: tok.trace }
    | _ =>
      { payment := payment1, cache := tok.cache, msisdnCleared := false,
        err := some e,
        trace := Ev.persistInfo [("reference", JVal.s refid)] :: tok.trace }
  | none =>
    match chargeNet with
    | HttpOutcome.transportError m =>
      { payment := payment1.fail [("reference", JVal.s refid), ("error", JVal.s m)],
        cache := tok.cache, msisdnCleared := false,
        err := some (PyErr.paymentException (JVal.s commErrorMessage)),
        trace := Ev.persistInfo [("reference", JVal.s refid)] ::
          (tok.trace ++ [Ev.netChargePost (urljoin s.baseurl "/collection/v1_0/requesttopay")]) }
    | HttpOutcome.ok _body =>
      let payment2 : OrderPayment := { payment1 with state := PaymentState.pending }
      let u := _update_payment tokenNet2 statusNet now tok.cache s payment2
      { payment := u.payment, cache := u.cache, msisdnCleared := true,
        err := u.err,
        trace := Ev.persistInfo [("reference", JVal.s refid)] ::
          (tok.trace ++ [Ev.netChargePost (urljoin s.baseurl "/collection/v1_0/requesttopay"),
            Ev.persistState PaymentState.pending, Ev.callUpdatePayment]) }

/-- Result of one webhook request: both tables after the request, the
cache, the HTTP response body (some "OK" is the 200 response; none means
an exception escaped the view and no 200/"OK" was produced), and the
escaped exception if any. -/
structure WebhookOut where
  payments : List OrderPayment
  refunds : List OrderRefund
  cache : CacheState
  response : Option String
  err : Option PyErr
deriving Repr, DecidableEq

/-- The payment branch of the webhook view: iterate over
OrderPayment.objects.filter(provider="mtn_momo", pk=...) and run
_update_payment on each match; an exception thrown by a reconciliation
aborts the loop (and then the view) at that point. Returns the updated
table, the cache, and the escaped exception if any. -/
def webhookPayments (tn sn : HttpOutcome) (now : Int) (s : Settings) (pk : Nat) :
    List OrderPayment → CacheState → List OrderPayment × CacheState × Option PyErr
  | [], c => ([], c, none)
  | p :: ps, c =>
    if p.provider = "mtn_momo" ∧ p.pk = pk then
      let u := _update_payment tn sn now c s p
      match u.err with
      | some e => (u.payment :: ps, u.cache, some e)
      | none =>
        let r := webhookPayments tn sn now s pk ps u.cache
        (u.payment :: r.1, r.2.1, r.2.2)
    else
      let r := webhookPayments tn sn now s pk ps c
      (p :: r.1, r.2.1, r.2.2)

/-- The refund branch of the webhook view, over
OrderRefund.objects.filter(provider="mtn_momo", pk=...). -/
def webhookRefunds (tn sn : HttpOutcome) (now : Int) (s : Settings) (pk : Nat) :
    List OrderRefund → CacheState → List OrderRefund × CacheState × Option PyErr
  | [], c => ([], c, none)
  | r :: rs, c =>
    if r.provider = "mtn_momo" ∧ r.pk = pk then
      let u := _update_refund tn sn now c s r
      match u.err with
      | some e => (u.refund :: rs, u.cache, some e)
      | none =>
        let rest := webhookRefunds tn sn now s pk rs u.cache
        (u.refund :: rest.1, rest.2.1, rest.2.2)
    else
      let rest := webhookRefunds tn sn now s pk rs c
      (r :: rest.1, rest.2.1, rest.2.2)

/-- The webhook view from views.py. payGet and refGet model the "payment"
and "refund" query parameters (present with the parsed pk, or absent);
the "payment" branch takes precedence, exactly as the if/elif does. The
view body has no exception handling, so an exception raised by a
reconciler escapes before HttpResponse("OK") is built: in that case
response is none. -/
def webhook (payGet refGet : Option Nat) (tn sn : HttpOutcome) (now : Int)
    (c : CacheState) (s : Settings)
    (payments : List OrderPayment) (refunds : List OrderRefund) : WebhookOut :=
  match payGet with
  | some pk =>
    let r := webhookPayments tn sn now s pk payments c
    { payments := r.1, refunds := refunds, cache := r.2.1, err := r.2.2,
      response := if r.2.2 = none then some "OK" else none }
  | none =>
    match refGet with
    | some pk =>
      let r := webhookRefunds tn sn now s pk refunds c
      { payments := payments, refunds := r.1, cache := r.2.1, err := r.2.2,
        response := if r.2.2 = none then some "OK" else none }
    | none =>
      { payments := payments, refunds := refunds, cache := c, err := none,
        response := some "OK" }

/-- register_periodic_task from signals.py. Selects the payments with
provider "mtn_momo" in pending state created strictly within the last
day (created__gt = now - timedelta(days=1), in seconds) and the refunds
with provider "mtn_momo" in transit state created strictly within the
last day, and enqueues check_payment / check_refund for each selected
primary key; the two pk lists are the enqueued task arguments. -/
def register_periodic_task (now : Int) (payments : List OrderPayment)
    (refunds : List OrderRefund) : List Nat × List Nat :=
  ((payments.filter (fun op => decide (op.provider = "mtn_momo" ∧
      op.state = PaymentState.pending ∧ now - 86400 < op.created))).map (fun op => op.pk),
   (refunds.filter (fun r => decide (r.provider = "mtn_momo" ∧
      r.state = RefundState.transit ∧ now - 86400 < r.created))).map (fun r => r.pk))

/-- Sample merchant settings for the concrete evaluation theorems. -/
def sampleSettings : Settings :=
  { baseurl := "b", environment := "sandbox", api_user_id := "u",
    api_secret := "sec", subscription_key := "k", refund_subscription_key := "rk" }

/-- Sample token-endpoint outcome: 2xx with an access token and a one
hour expiry. -/
def sampleTokenNet : HttpOutcome :=
  HttpOutcome.ok [("access_token", JVal.s "T"), ("expires_in", JVal.i 3600)]

/-- Sample status-endpoint outcome reporting SUCCESSFUL. -/
def sampleSuccNet : HttpOutcome :=
  HttpOutcome.ok [("status", JVal.s "SUCCESSFUL")]

/-- Sample status-endpoint outcome reporting FAILED with a reason. -/
def sampleFailNet : HttpOutcome :=
  HttpOutcome.ok [("status", JVal.s "FAILED"), ("reason", JVal.s "PAYER_NOT_FOUND")]

/-- Sample pending payment of this provider with a stored reference. -/
def samplePaymentPending : OrderPayment :=
  { pk := 1, provider := "mtn_momo", state := PaymentState.pending,
    info := [("reference", JVal.s "r1")], created := 0 }

/-- Sample confirmed payment of this provider with a stored reference. -/
def samplePaymentConfirmed : OrderPayment :=
  { pk := 2, provider := "mtn_momo", state := PaymentState.confirmed,
    info := [("reference", JVal.s "r2")], created := 0 }

/-- Sample payment in created state, before execute_payment runs. -/
def samplePaymentCreated : OrderPayment :=
  { pk := 3, provider := "mtn_momo", state := PaymentState.created,
    info := [], created := 0 }

/-- Sample in-transit refund of this provider with a stored reference. -/
def sampleRefundTransit : OrderRefund :=
  { pk := 1, provider := "mtn_momo", state := RefundState.transit,
    info := [("reference", JVal.s "r1")], created := 0 }

/-- Merging the same dict twice on the right is absorbed: this is why the
double merge performed by the reconcilers in the SUCCESSFUL branch (merge
and save, then merge and save again in the trailing else) stores exactly
the single merge. -/
theorem dmerge_absorb (a d : Dict) : dmerge (dmerge a d) d = dmerge a d := by
  have hd : d.filter (fun kv => (d.find? (fun kv2 => kv2.1 == kv.1)).isNone) = [] := by
    rw [List.filter_eq_nil_iff]
    intro kv hkv h
    have hs : (d.find? (fun kv2 => kv2.1 == kv.1)).isSome := by
      rw [List.find?_isSome]
      exact ⟨kv, hkv, by simp⟩
    rw [Option.isNone_iff_eq_none] at h
    rw [h] at hs
    simp at hs
  unfold dmerge
  rw [List.filter_append, List.filter_filter, hd]
  simp [Bool.and_self]

/-- A cache entry written with time-to-live ttl is returned by a read
strictly before its expiry instant. -/
theorem cacheGet_cacheSet_live (c : CacheState) (now t2 : Int) (k : String) (v : Dict)
    (ttl : Int) (h : t2 < now + ttl) :
    cacheGet (cacheSet c now k v ttl) t2 k = some v := by
  simp [cacheGet, cacheSet, List.find?_cons, h]

/-- A cache entry written with time-to-live ttl is gone from reads at or
after its expiry instant. -/
theorem cacheGet_cacheSet_expired (c : CacheState) (now t2 : Int) (k : String) (v : Dict)
    (ttl : Int) (h : now + ttl ≤ t2) :
    cacheGet (cacheSet c now k v ttl) t2 k = none := by
  have h1 : decide (t2 < now + ttl) = false := decide_eq_false (not_lt.mpr h)
  simp only [cacheGet, cacheSet, List.find?_cons, beq_self_eq_true, Bool.true_and, h1]
  simp only [Option.map_eq_none', List.find?_eq_none, List.mem_filter]
  rintro e ⟨_, hkey⟩
  rw [Bool.not_eq_true'] at hkey
  simp [hkey]

/-- On a cache hit with a truthy cached dict holding an access_token,
get_token returns that token with no network request, no cache change and
no exception, whatever the network oracle would have answered. -/
theorem get_token_hit (net : HttpOutcome) (now : Int) (c : CacheState)
    (base sk uid sec api : String) (th : Dict) (v : JVal)
    (hth : cacheGet c now (token_cache_key sk uid sec api) = some th)
    (hne : th ≠ []) (hv : dget th "access_token" = some v) :
    get_token net now c base sk uid sec api =
      { ret := some v, cache := c, trace := [], err := none } := by
  simp only [get_token, hth, if_neg hne, hv]

/-- On a cache miss with a 2xx token response carrying an integer
expires_in and an access_token, get_token performs the fetch, stores the
raw response with time-to-live expires_in - 120, and returns the token. -/
theorem get_token_miss_ok (now : Int) (c : CacheState) (base sk uid sec api : String)
    (resp : Dict) (n : Int) (v : JVal)
    (hmiss : cacheGet c now (token_cache_key sk uid sec api) = none)
    (hexp : dget resp "expires_in" = some (JVal.i n))
    (hacc : dget resp "access_token" = some v) :
    get_token (HttpOutcome.ok resp) now c base sk uid sec api =
      { ret := some v,
        cache := cacheSet c now (token_cache_key sk uid sec api) resp (n - 120),
        trace := [Ev.netTokenPost (urljoin base ("/" ++ api ++ "/token/"))],
        err := none } := by
  simp only [get_token, hmiss, get_token_fetch, hexp, hacc]

/-- Every branch of the fetch path performs exactly the one token POST. -/
theorem get_token_fetch_trace (net : HttpOutcome) (now : Int) (c : CacheState)
    (key base api : String) :
    (get_token_fetch net now c key base api).trace =
      [Ev.netTokenPost (urljoin base ("/" ++ api ++ "/token/"))] := by
  unfold get_token_fetch
  cases net with
  | transportError m => rfl
  | ok resp =>
    dsimp only
    split
    · rfl
    · rfl
    · split
      · rfl
      · rfl

/-- On a cache miss, get_token performs exactly one token POST, whatever
the network outcome. -/
theorem get_token_miss_trace (net : HttpOutcome) (now : Int) (c : CacheState)
    (base sk uid sec api : String)
    (hmiss : cacheGet c now (token_cache_key sk uid sec api) = none) :
    (get_token net now c base sk uid sec api).trace =
      [Ev.netTokenPost (urljoin base ("/" ++ api ++ "/token/"))] := by
  simp only [get_token, hmiss, get_token_fetch_trace]

/-- The trace of any get_token call is empty (cache hit) or the single
token POST (fetch path). -/
theorem get_token_trace_cases (net : HttpOutcome) (now : Int) (c : CacheState)
    (base sk uid sec api : String) :
    (get_token net now c base sk uid sec api).trace = [] ∨
    (get_token net now c base sk uid sec api).trace =
      [Ev.netTokenPost (urljoin base ("/" ++ api ++ "/token/"))] := by
  unfold get_token
  cases hcg : cacheGet c now (token_cache_key sk uid sec api) with
  | none => exact Or.inr (get_token_fetch_trace net now c _ base api)
  | some th =>
    dsimp only
    by_cases hth : th = ([] : Dict)
    · rw [if_pos hth]
      exact Or.inr (get_token_fetch_trace net now c _ base api)
    · rw [if_neg hth]
      cases hacc : dget th "access_token" with
      | none => exact Or.inl rfl
      | some v => exact Or.inl rfl

/-- When no payment row matches the filter, the webhook payment loop
changes nothing and raises nothing. -/
theorem webhookPayments_no_match (tn sn : HttpOutcome) (now : Int) (s : Settings) (pk : Nat)
    (ps : List OrderPayment) (c : CacheState)
    (h : ∀ p ∈ ps, ¬ (p.provider = "mtn_momo" ∧ p.pk = pk)) :
    webhookPayments tn sn now s pk ps c = (ps, c, none) := by
  induction ps with
  | nil => rfl
  | cons p ps ih =>
    have hp := h p (List.mem_cons_self p ps)
    have hrest : ∀ q ∈ ps, ¬ (q.provider = "mtn_momo" ∧ q.pk = pk) :=
      fun q hq => h q (List.mem_cons_of_mem p hq)
    simp only [webhookPayments, if_neg hp, ih hrest]

/-- C1: for every payment whose provider-data contains a reference, when
the token fetch succeeds and the status GET returns a body with status
"SUCCESSFUL", _update_payment persists the merge of the stored
provider-data with the response into the payment's provider-data, marks
the payment confirmed, and raises nothing. -/
theorem update_payment_successful_confirms
    (tn sn : HttpOutcome) (now : Int) (c : CacheState) (s : Settings)
    (payment : OrderPayment) (r : JVal) (d : Dict)
    (href : dget payment.info "reference" = some r)
    (htok : (get_token tn now c s.baseurl s.subscription_key
      s.api_user_id s.api_secret "collection").err = none)
    (hsn : sn = HttpOutcome.ok d)
    (hst : dget d "status" = some (JVal.s "SUCCESSFUL")) :
    (_update_payment tn sn now c s payment).payment.state = PaymentState.confirmed ∧
    (_update_payment tn sn now c s payment).payment.info = dmerge payment.info d ∧
    (_update_payment tn sn now c s payment).err = none := by
  subst hsn
  simp only [_update_payment, href, htok, hst]
  simp [OrderPayment.confirm, dmerge_absorb]

/-- C1 witness: a concrete pending payment, a concrete token response and
a concrete SUCCESSFUL status response exercise the theorem. -/
theorem update_payment_successful_confirms_witness :
    (_update_payment sampleTokenNet sampleSuccNet 0 [] sampleSettings
      samplePaymentPending).payment.state = PaymentState.confirmed ∧
    (_update_payment sampleTokenNet sampleSuccNet 0 [] sampleSettings
      samplePaymentPending).payment.info =
      dmerge samplePaymentPending.info [("status", JVal.s "SUCCESSFUL")] ∧
    (_update_payment sampleTokenNet sampleSuccNet 0 [] sampleSettings
      samplePaymentPending).err = none :=
  update_payment_successful_confirms sampleTokenNet sampleSuccNet 0 [] sampleSettings
    samplePaymentPending (JVal.s "r1") [("status", JVal.s "SUCCESSFUL")]
    (by decide) (by decide) rfl (by decide)

/-- C2: on a FAILED provider response, _update_payment fails a created or
pending payment with the merged payload as the failure detail, while an
already-confirmed payment stays confirmed and only the merged payload is
persisted; no exception escapes in either case. -/
theorem update_payment_failed_branches
    (tn sn : HttpOutcome) (now : Int) (c : CacheState) (s : Settings)
    (payment : OrderPayment) (r : JVal) (d : Dict)
    (href : dget payment.info "reference" = some r)
    (htok : (get_token tn now c s.baseurl s.subscription_key
      s.api_user_id s.api_secret "collection").err = none)
    (hsn : sn = HttpOutcome.ok d)
    (hst : dget d "status" = some (JVal.s "FAILED")) :
    ((payment.state = PaymentState.created ∨ payment.state = PaymentState.pending) →
      (_update_payment tn sn now c s payment).payment.state = PaymentState.failed ∧
      (_update_payment tn sn now c s payment).payment.info = dmerge payment.info d ∧
      (_update_payment tn sn now c s payment).err = none) ∧
    (payment.state = PaymentState.confirmed →
      (_update_payment tn sn now c s payment).payment.state = PaymentState.confirmed ∧
      (_update_payment tn sn now c s payment).payment.info = dmerge payment.info d ∧
      (_update_payment tn sn now c s payment).err = none) := by
  subst hsn
  simp only [_update_payment, href, htok, hst]
  constructor
  · intro hstate
    simp [OrderPayment.fail, hstate]
  · intro hconf
    simp [hconf]

/-- C2 witness: a concrete pending payment and a concrete confirmed
payment against a concrete FAILED response exercise both branches. -/
theorem update_payment_failed_branches_witness :
    ((samplePaymentPending.state = PaymentState.created ∨
        samplePaymentPending.state = PaymentState.pending) →
      (_update_payment sampleTokenNet sampleFailNet 0 [] sampleSettings
        samplePaymentPending).payment.state = PaymentState.failed ∧
      (_update_payment sampleTokenNet sampleFailNet 0 [] sampleSettings
        samplePaymentPending).payment.info =
        dmerge samplePaymentPending.info
          [("status", JVal.s "FAILED"), ("reason", JVal.s "PAYER_NOT_FOUND")] ∧
      (_update_payment sampleTokenNet sampleFailNet 0 [] sampleSettings
        samplePaymentPending).err = none) ∧
    ((samplePaymentPending.state = PaymentState.created ∨
        samplePaymentPending.state = PaymentState.pending) ∧
      (_update_payment sampleTokenNet sampleFailNet 0 [] sampleSettings
        samplePaymentPending).payment.state = PaymentState.failed) :=
  ⟨(update_payment_failed_branches sampleTokenNet sampleFailNet 0 [] sampleSettings
      samplePaymentPending (JVal.s "r1")
      [("status", JVal.s "FAILED"), ("reason", JVal.s "PAYER_NOT_FOUND")]
      (by decide) (by decide) rfl (by decide)).1,
   Or.inr (by decide),
   ((update_payment_failed_branches sampleTokenNet sampleFailNet 0 [] sampleSettings
      samplePaymentPending (JVal.s "r1")
      [("status", JVal.s "FAILED"), ("reason", JVal.s "PAYER_NOT_FOUND")]
      (by decide) (by decide) rfl (by decide)).1 (Or.inr (by decide))).1⟩

/-- C3: for every credential tuple, get_token performs exactly one token
POST per cache miss and stores the raw provider response under the hashed
cache key with time-to-live expires_in - 120; on a cache hit it returns
the cached access_token with no network request whatever the network
would answer (no expiry re-check at read time), and it keeps doing so for
any read strictly before the entry's expiry instant, while a read at or
after that instant misses and fetches again. -/
theorem get_token_cache_contract (base sk uid sec api : String) (now : Int) (c : CacheState) :
    (∀ resp n v,
      cacheGet c now (token_cache_key sk uid sec api) = none →
      dget resp "expires_in" = some (JVal.i n) →
      dget resp "access_token" = some v →
      get_token (HttpOutcome.ok resp) now c base sk uid sec api =
        { ret := some v,
          cache := cacheSet c now (token_cache_key sk uid sec api) resp (n - 120),
          trace := [Ev.netTokenPost (urljoin base ("/" ++ api ++ "/token/"))],
          err := none }) ∧
    (∀ th v net,
      cacheGet c now (token_cache_key sk uid sec api) = some th → th ≠ [] →
      dget th "access_token" = some v →
      get_token net now c base sk uid sec api =
        { ret := some v, cache := c, trace := [], err := none }) ∧
    (∀ resp n v net2 t2,
      cacheGet c now (token_cache_key sk uid sec api) = none →
      dget resp "expires_in" = some (JVal.i n) →
      dget resp "access_token" = some v →
      resp ≠ [] →
      t2 < now + (n - 120) →
      get_token net2 t2 (get_token (HttpOutcome.ok resp) now c base sk uid sec api).cache
          base sk uid sec api =
        { ret := some v,
          cache := (get_token (HttpOutcome.ok resp) now c base sk uid sec api).cache,
          trace := [], err := none }) ∧
    (∀ resp n v net2 t2,
      cacheGet c now (token_cache_key sk uid sec api) = none →
      dget resp "expires_in" = some (JVal.i n) →
      dget resp "access_token" = some v →
      now + (n - 120) ≤ t2 →
      (get_token net2 t2 (get_token (HttpOutcome.ok resp) now c base sk uid sec api).cache
          base sk uid sec api).trace =
        [Ev.netTokenPost (urljoin base ("/" ++ api ++ "/token/"))]) := by
  refine ⟨?_, ?_, ?_, ?_⟩
  · intro resp n v hmiss hexp hacc
    exact get_token_miss_ok now c base sk uid sec api resp n v hmiss hexp hacc
  · intro th v net hth hne hv
    exact get_token_hit net now c base sk uid sec api th v hth hne hv
  · intro resp n v net2 t2 hmiss hexp hacc hne ht
    rw [get_token_miss_ok now c base sk uid sec api resp n v hmiss hexp hacc]
    exact get_token_hit net2 t2 _ base sk uid sec api resp v
      (cacheGet_cacheSet_live c now t2 _ resp (n - 120) ht) hne hacc
  · intro resp n v net2 t2 hmiss hexp hacc ht
    rw [get_token_miss_ok now c base sk uid sec api resp n v hmiss hexp hacc]
    exact get_token_miss_trace net2 t2 _ base sk uid sec api
      (cacheGet_cacheSet_expired c now t2 _ resp (n - 120) ht)

/-- C3 witness: a concrete miss-fetch at time 0, a hit at time 3479 (one
second before the entry expires at 3600 - 120 = 3480) returning the
cached token with no request, and a fetch again at time 3480. -/
theorem get_token_cache_contract_witness :
    get_token (HttpOutcome.ok [("access_token", JVal.s "T"), ("expires_in", JVal.i 3600)])
        0 [] "b" "k" "u" "sec" "collection" =
      { ret := some (JVal.s "T"),
        cache := cacheSet [] 0 (token_cache_key "k" "u" "sec" "collection")
          [("access_token", JVal.s "T"), ("expires_in", JVal.i 3600)] 3480,
        trace := [Ev.netTokenPost (urljoin "b" "/collection/token/")],
        err := none } ∧
    get_token (HttpOutcome.transportError "down") 3479
        (get_token (HttpOutcome.ok [("access_token", JVal.s "T"), ("expires_in", JVal.i 3600)])
          0 [] "b" "k" "u" "sec" "collection").cache "b" "k" "u" "sec" "collection" =
      { ret := some (JVal.s "T"),
        cache := (get_token
          (HttpOutcome.ok [("access_token", JVal.s "T"), ("expires_in", JVal.i 3600)])
          0 [] "b" "k" "u" "sec" "collection").cache,
        trace := [], err := none } ∧
    (get_token (HttpOutcome.transportError "down") 3480
        (get_token (HttpOutcome.ok [("access_token", JVal.s "T"), ("expires_in", JVal.i 3600)])
          0 [] "b" "k" "u" "sec" "collection").cache "b" "k" "u" "sec" "collection").trace =
      [Ev.netTokenPost (urljoin "b" "/collection/token/")] :=
  ⟨(get_token_cache_contract "b" "k" "u" "sec" "collection" 0 []).1
      [("access_token", JVal.s "T"), ("expires_in", JVal.i 3600)] 3600 (JVal.s "T")
      (by decide) (by decide) (by decide),
   (get_token_cache_contract "b" "k" "u" "sec" "collection" 0 []).2.2.1
      [("access_token", JVal.s "T"), ("expires_in", JVal.i 3600)] 3600 (JVal.s "T")
      (HttpOutcome.transportError "down") 3479
      (by decide) (by decide) (by decide) (by decide) (by decide),
   (get_token_cache_contract "b" "k" "u" "sec" "collection" 0 []).2.2.2
      [("access_token", JVal.s "T"), ("expires_in", JVal.i 3600)] 3600 (JVal.s "T")
      (HttpOutcome.transportError "down") 3480
      (by decide) (by decide) (by decide) (by decide)⟩

/-- C10: the cache key of get_token is computed only from the
subscription key, the API user id, the API secret and the API family,
never from the base URL; hence on a cache hit the entire result of
get_token is independent of the base URL (and of the network), and a
token cached by a call against one base URL is returned unchanged, with
no network request, by a later in-window call against a different base
URL. -/
theorem get_token_base_url_independent (sk uid sec api : String) (now : Int) (c : CacheState) :
    (∀ base1 base2 net1 net2 th,
      cacheGet c now (token_cache_key sk uid sec api) = some th → th ≠ [] →
      get_token net1 now c base1 sk uid sec api = get_token net2 now c base2 sk uid sec api) ∧
    (∀ base1 base2 resp n v net2 t2,
      cacheGet c now (token_cache_key sk uid sec api) = none →
      dget resp "expires_in" = some (JVal.i n) →
      dget resp "access_token" = some v →
      resp ≠ [] →
      t2 < now + (n - 120) →
      get_token net2 t2 (get_token (HttpOutcome.ok resp) now c base1 sk uid sec api).cache
          base2 sk uid sec api =
        { ret := some v,
          cache := (get_token (HttpOutcome.ok resp) now c base1 sk uid sec api).cache,
          trace := [], err := none }) := by
  constructor
  · intro base1 base2 net1 net2 th hth hne
    cases hacc : dget th "access_token" with
    | some v =>
      rw [get_token_hit net1 now c base1 sk uid sec api th v hth hne hacc,
        get_token_hit net2 now c base2 sk uid sec api th v hth hne hacc]
    | none =>
      simp only [get_token, hth, if_neg hne, hacc]
  · intro base1 base2 resp n v net2 t2 hmiss hexp hacc hne ht
    rw [get_token_miss_ok now c base1 sk uid sec api resp n v hmiss hexp hacc]
    exact get_token_hit net2 t2 _ base2 sk uid sec api resp v
      (cacheGet_cacheSet_live c now t2 _ resp (n - 120) ht) hne hacc

/-- C10 witness: a token fetched at time 0 against base URL "b1" is
returned unchanged at time 100 for the same credentials against base URL
"b2", with no network request; and two hit-path calls against different
base URLs and different network oracles agree exactly. -/
theorem get_token_base_url_independent_witness :
    get_token (HttpOutcome.transportError "down") 100
        (get_token (HttpOutcome.ok [("access_token", JVal.s "T"), ("expires_in", JVal.i 3600)])
          0 [] "b1" "k" "u" "sec" "collection").cache "b2" "k" "u" "sec" "collection" =
      { ret := some (JVal.s "T"),
        cache := (get_token
          (HttpOutcome.ok [("access_token", JVal.s "T"), ("expires_in", JVal.i 3600)])
          0 [] "b1" "k" "u" "sec" "collection").cache,
        trace := [], err := none } ∧
    get_token (HttpOutcome.transportError "down") 100
        [{ key := token_cache_key "k" "u" "sec" "collection",
           value := [("access_token", JVal.s "T")], expiresAt := 500 }]
        "b1" "k" "u" "sec" "collection" =
      get_token (HttpOutcome.ok [("status", JVal.s "x")]) 100
        [{ key := token_cache_key "k" "u" "sec" "collection",
           value := [("access_token", JVal.s "T")], expiresAt := 500 }]
        "b2" "k" "u" "sec" "collection" :=
  ⟨(get_token_base_url_independent "k" "u" "sec" "collection" 0 []).2
      "b1" "b2" [("access_token", JVal.s "T"), ("expires_in", JVal.i 3600)] 3600 (JVal.s "T")
      (HttpOutcome.transportError "down") 100
      (by decide) (by decide) (by decide) (by decide) (by decide),
   (get_token_base_url_independent "k" "u" "sec" "collection" 100
      [{ key := token_cache_key "k" "u" "sec" "collection",
         value := [("access_token", JVal.s "T")], expiresAt := 500 }]).1
      "b1" "b2" (HttpOutcome.transportError "down") (HttpOutcome.ok [("status", JVal.s "x")])
      [("access_token", JVal.s "T")] (by decide) (by decide)⟩

/-- C4: when the disbursement token fetch succeeds and the refund status
GET reports FAILED with a reason, _update_refund on a created or
in-transit refund raises a PaymentException carrying the provider's
reason field, leaves the refund row untouched and in particular does not
mark it done. -/
theorem update_refund_failed_raises
    (tn sn : HttpOutcome) (now : Int) (c : CacheState) (s : Settings)
    (refund : OrderRefund) (r rsn : JVal) (d : Dict)
    (href : dget refund.info "reference" = some r)
    (htok : (get_token tn now c s.baseurl s.refund_subscription_key
      s.api_user_id s.api_secret "disbursement").err = none)
    (hsn : sn = HttpOutcome.ok d)
    (hst : dget d "status" = some (JVal.s "FAILED"))
    (hrsn : dget d "reason" = some rsn)
    (hstate : refund.state = RefundState.created ∨ refund.state = RefundState.transit) :
    (_update_refund tn sn now c s refund).err = some (PyErr.paymentException rsn) ∧
    (_update_refund tn sn now c s refund).refund = refund ∧
    (_update_refund tn sn now c s refund).refund.state ≠ RefundState.done := by
  subst hsn
  simp only [_update_refund, href, htok, hst, hrsn]
  refine ⟨?_, ?_, ?_⟩ <;> rcases hstate with hstate | hstate <;> simp [hstate]

/-- C4 witness: a concrete in-transit refund against a concrete FAILED
response with reason "PAYER_NOT_FOUND" exercises the theorem. -/
theorem update_refund_failed_raises_witness :
    (_update_refund sampleTokenNet sampleFailNet 0 [] sampleSettings
      sampleRefundTransit).err =
      some (PyErr.paymentException (JVal.s "PAYER_NOT_FOUND")) ∧
    (_update_refund sampleTokenNet sampleFailNet 0 [] sampleSettings
      sampleRefundTransit).refund = sampleRefundTransit ∧
    (_update_refund sampleTokenNet sampleFailNet 0 [] sampleSettings
      sampleRefundTransit).refund.state ≠ RefundState.done :=
  update_refund_failed_raises sampleTokenNet sampleFailNet 0 [] sampleSettings
    sampleRefundTransit (JVal.s "r1") (JVal.s "PAYER_NOT_FOUND")
    [("status", JVal.s "FAILED"), ("reason", JVal.s "PAYER_NOT_FOUND")]
    (by decide) (by decide) rfl (by decide) (by decide) (Or.inr (by decide))

/-- C6: for a payment whose provider-data holds a reference, when the
token fetch raises a RequestException, or the token fetch succeeds and
the status GET fails with a transport error, _update_payment logs and
returns silently: the payment row is unchanged and no exception reaches
the caller. -/
theorem update_payment_transport_errors_silent
    (tn sn : HttpOutcome) (now : Int) (c : CacheState) (s : Settings)
    (payment : OrderPayment) (r : JVal)
    (href : dget payment.info "reference" = some r) :
    (∀ m, (get_token tn now c s.baseurl s.subscription_key
        s.api_user_id s.api_secret "collection").err = some (PyErr.requestException m) →
      (_update_payment tn sn now c s payment).payment = payment ∧
      (_update_payment tn sn now c s payment).err = none) ∧
    (∀ m, (get_token tn now c s.baseurl s.subscription_key
        s.api_user_id s.api_secret "collection").err = none →
      sn = HttpOutcome.transportError m →
      (_update_payment tn sn now c s payment).payment = payment ∧
      (_update_payment tn sn now c s payment).err = none) := by
  constructor
  · intro m htok
    simp [_update_payment, href, htok]
  · intro m htok hsn
    subst hsn
    simp [_update_payment, href, htok]

/-- C6 witness: a concrete token-endpoint transport failure and a
concrete status-endpoint transport failure both leave the sample pending
payment untouched with no escaped exception. -/
theorem update_payment_transport_errors_silent_witness :
    ((_update_payment (HttpOutcome.transportError "down") sampleSuccNet 0 []
        sampleSettings samplePaymentPending).payment = samplePaymentPending ∧
      (_update_payment (HttpOutcome.transportError "down") sampleSuccNet 0 []
        sampleSettings samplePaymentPending).err = none) ∧
    ((_update_payment sampleTokenNet (HttpOutcome.transportError "down") 0 []
        sampleSettings samplePaymentPending).payment = samplePaymentPending ∧
      (_update_payment sampleTokenNet (HttpOutcome.transportError "down") 0 []
        sampleSettings samplePaymentPending).err = none) :=
  ⟨(update_payment_transport_errors_silent (HttpOutcome.transportError "down")
      sampleSuccNet 0 [] sampleSettings samplePaymentPending (JVal.s "r1")
      (by decide)).1 "down" (by decide),
   (update_payment_transport_errors_silent sampleTokenNet
      (HttpOutcome.transportError "down") 0 [] sampleSettings samplePaymentPending
      (JVal.s "r1") (by decide)).2 "down" (by decide) rfl⟩

/-- The trace of every execute_payment run starts with the persistence of
the fresh reference into the payment's provider-data. -/
theorem execute_payment_trace_shape
    (refid : String) (tn1 ch tn2 sn : HttpOutcome) (now : Int) (c : CacheState)
    (s : Settings) (payment : OrderPayment) :
    ∃ rest, (execute_payment refid tn1 ch tn2 sn now c s payment).trace =
      Ev.persistInfo [("reference", JVal.s refid)] :: rest := by
  simp only [execute_payment]
  cases hterr : (get_token tn1 now c s.baseurl s.subscription_key
      s.api_user_id s.api_secret "collection").err with
  | some e =>
    cases e with
    | keyError k => exact ⟨_, rfl⟩
    | typeError k => exact ⟨_, rfl⟩
    | requestException m => exact ⟨_, rfl⟩
    | paymentException m => exact ⟨_, rfl⟩
  | none =>
    cases ch with
    | transportError m => exact ⟨_, rfl⟩
    | ok body => exact ⟨_, rfl⟩

/-- C7: in every execution of execute_payment, the fresh reference is
persisted into the payment's provider-data as the very first recorded
step, so every network request of the run (the token POST and the charge
POST alike) happens strictly after that persistence. -/
theorem execute_payment_persists_reference_first
    (refid : String) (tn1 ch tn2 sn : HttpOutcome) (now : Int) (c : CacheState)
    (s : Settings) (payment : OrderPayment) :
    (execute_payment refid tn1 ch tn2 sn now c s payment).trace.head? =
      some (Ev.persistInfo [("reference", JVal.s refid)]) ∧
    (∀ i ev, (execute_payment refid tn1 ch tn2 sn now c s payment).trace.get? i = some ev →
      isNetEv ev = true → 0 < i) := by
  obtain ⟨rest, hshape⟩ :=
    execute_payment_trace_shape refid tn1 ch tn2 sn now c s payment
  rw [hshape]
  constructor
  · rfl
  · intro i ev hget hev
    cases i with
    | zero =>
      rw [List.get?_cons_zero] at hget
      injection hget with hget
      rw [← hget] at hev
      simp [isNetEv] at hev
    | succ j => exact Nat.succ_pos j

/-- C7 witness: in a concrete run, the head of the trace is the reference
persistence, and the token POST found at position 1 is indeed at a
strictly positive position. -/
theorem execute_payment_persists_reference_first_witness :
    (execute_payment "r1" sampleTokenNet (HttpOutcome.ok []) sampleTokenNet sampleSuccNet
      0 [] sampleSettings samplePaymentCreated).trace.head? =
      some (Ev.persistInfo [("reference", JVal.s "r1")]) ∧
    0 < 1 :=
  ⟨(execute_payment_persists_reference_first "r1" sampleTokenNet (HttpOutcome.ok [])
      sampleTokenNet sampleSuccNet 0 [] sampleSettings samplePaymentCreated).1,
   (execute_payment_persists_reference_first "r1" sampleTokenNet (HttpOutcome.ok [])
      sampleTokenNet sampleSuccNet 0 [] sampleSettings samplePaymentCreated).2
      1 (Ev.netTokenPost (urljoin "b" "/collection/token/")) (by decide) (by decide)⟩

/-- C8 counterexample: in a concrete execute_payment run whose charge
POST fails with a transport error, no invocation of _update_payment is
recorded at all — the raise in the except branch skips the trailing
reconciler call — so execute_payment is not always followed by an
immediate _update_payment invocation for the transport-failure outcome. -/
theorem execute_payment_no_update_on_failure_counterexample :
    Ev.callUpdatePayment ∉
      (execute_payment "r1" sampleTokenNet (HttpOutcome.transportError "conn")
        sampleTokenNet sampleSuccNet 0 [] sampleSettings samplePaymentCreated).trace ∧
    (execute_payment "r1" sampleTokenNet (HttpOutcome.transportError "conn")
      sampleTokenNet sampleSuccNet 0 [] sampleSettings samplePaymentCreated).err =
      some (PyErr.paymentException (JVal.s commErrorMessage)) := by
  decide

/-- C8 amended: when the token fetch succeeds and the charge POST gets a
2xx response, execute_payment ends with an immediate _update_payment
invocation on the payment; when the charge POST fails with a transport
error, or the token fetch raises a RequestException, the payment is
failed, a generic PaymentException is raised, and _update_payment is not
invoked. -/
theorem execute_payment_update_only_on_success
    (refid : String) (tn1 ch tn2 sn : HttpOutcome) (now : Int) (c : CacheState)
    (s : Settings) (payment : OrderPayment) :
    ((get_token tn1 now c s.baseurl s.subscription_key
        s.api_user_id s.api_secret "collection").err = none →
      ∀ body, ch = HttpOutcome.ok body →
      (execute_payment refid tn1 ch tn2 sn now c s payment).trace.getLast? =
        some Ev.callUpdatePayment) ∧
    ((get_token tn1 now c s.baseurl s.subscription_key
        s.api_user_id s.api_secret "collection").err = none →
      ∀ m, ch = HttpOutcome.transportError m →
      Ev.callUpdatePayment ∉ (execute_payment refid tn1 ch tn2 sn now c s payment).trace ∧
      (execute_payment refid tn1 ch tn2 sn now c s payment).err =
        some (PyErr.paymentException (JVal.s commErrorMessage)) ∧
      (execute_payment refid tn1 ch tn2 sn now c s payment).payment.state =
        PaymentState.failed) ∧
    (∀ m, (get_token tn1 now c s.baseurl s.subscription_key
        s.api_user_id s.api_secret "collection").err = some (PyErr.requestException m) →
      Ev.callUpdatePayment ∉ (execute_payment refid tn1 ch tn2 sn now c s payment).trace ∧
      (execute_payment refid tn1 ch tn2 sn now c s payment).err =
        some (PyErr.paymentException (JVal.s commErrorMessage)) ∧
      (execute_payment refid tn1 ch tn2 sn now c s payment).payment.state =
        PaymentState.failed) := by
  refine ⟨?_, ?_, ?_⟩
  · intro htok body hch
    subst hch
    simp only [execute_payment, htok]
    rw [show Ev.persistInfo [("reference", JVal.s refid)] ::
        ((get_token tn1 now c s.baseurl s.subscription_key
          s.api_user_id s.api_secret "collection").trace ++
          [Ev.netChargePost (urljoin s.baseurl "/collection/v1_0/requesttopay"),
            Ev.persistState PaymentState.pending, Ev.callUpdatePayment]) =
        (Ev.persistInfo [("reference", JVal.s refid)] ::
          ((get_token tn1 now c s.baseurl s.subscription_key
            s.api_user_id s.api_secret "collection").trace ++
            [Ev.netChargePost (urljoin s.baseurl "/collection/v1_0/requesttopay"),
              Ev.persistState PaymentState.pending])) ++ [Ev.callUpdatePayment]
      from by simp]
    exact List.getLast?_concat _
  · intro htok m hch
    subst hch
    rcases get_token_trace_cases tn1 now c s.baseurl s.subscription_key
        s.api_user_id s.api_secret "collection" with htr | htr <;>
      simp [execute_payment, htok, htr, OrderPayment.fail]
  · intro m htok
    rcases get_token_trace_cases tn1 now c s.baseurl s.subscription_key
        s.api_user_id s.api_secret "collection" with htr | htr <;>
      simp [execute_payment, htok, htr, OrderPayment.fail]

/-- C8 amended witness: a concrete successful charge run ends with the
reconciler invocation, and a concrete transport-failure run raises the
generic PaymentException with the payment failed. -/
theorem execute_payment_update_only_on_success_witness :
    (execute_payment "r1" sampleTokenNet (HttpOutcome.ok []) sampleTokenNet sampleSuccNet
      0 [] sampleSettings samplePaymentCreated).trace.getLast? =
      some Ev.callUpdatePayment ∧
    (execute_payment "r1" sampleTokenNet (HttpOutcome.transportError "conn")
      sampleTokenNet sampleSuccNet 0 [] sampleSettings samplePaymentCreated).payment.state =
      PaymentState.failed :=
  ⟨(execute_payment_update_only_on_success "r1" sampleTokenNet (HttpOutcome.ok [])
      sampleTokenNet sampleSuccNet 0 [] sampleSettings samplePaymentCreated).1
      (by decide) [] rfl,
   ((execute_payment_update_only_on_success "r1" sampleTokenNet
      (HttpOutcome.transportError "conn") sampleTokenNet sampleSuccNet 0 []
      sampleSettings samplePaymentCreated).2.1 (by decide) "conn" rfl).2.2⟩

/-- C5 counterexample: a webhook request for a concrete in-transit refund
whose reconciliation reports FAILED does not return 200/"OK": the
PaymentException raised by _update_refund escapes the view, which has no
exception handling. -/
theorem webhook_failed_refund_counterexample :
    (webhook none (some 1) sampleTokenNet sampleFailNet 0 [] sampleSettings
      [] [sampleRefundTransit]).response = none ∧
    (webhook none (some 1) sampleTokenNet sampleFailNet 0 [] sampleSettings
      [] [sampleRefundTransit]).err =
      some (PyErr.paymentException (JVal.s "PAYER_NOT_FOUND")) := by
  decide

/-- C5 amended: the webhook view returns 200/"OK" whenever the
reconciliations it triggers raise no exception; in particular a request
whose payment id matches no row of this provider, or that carries
neither parameter, performs no state change and still returns 200/"OK".
But an exception raised by a triggered reconciliation (such as the
PaymentException of a FAILED in-transit refund) escapes the view, which
then produces no 200/"OK" response. -/
theorem webhook_ok_unless_reconciler_raises
    (payGet refGet : Option Nat) (tn sn : HttpOutcome) (now : Int) (c : CacheState)
    (s : Settings) (payments : List OrderPayment) (refunds : List OrderRefund) :
    ((webhook payGet refGet tn sn now c s payments refunds).err = none →
      (webhook payGet refGet tn sn now c s payments refunds).response = some "OK") ∧
    ((webhook payGet refGet tn sn now c s payments refunds).err ≠ none →
      (webhook payGet refGet tn sn now c s payments refunds).response = none) ∧
    (∀ pk, payGet = some pk →
      (∀ p ∈ payments, ¬ (p.provider = "mtn_momo" ∧ p.pk = pk)) →
      webhook payGet refGet tn sn now c s payments refunds =
        { payments := payments, refunds := refunds, cache := c,
          response := some "OK", err := none }) ∧
    (payGet = none → refGet = none →
      webhook payGet refGet tn sn now c s payments refunds =
        { payments := payments, refunds := refunds, cache := c,
          response := some "OK", err := none }) := by
  refine ⟨?_, ?_, ?_, ?_⟩
  · intro h
    cases payGet with
    | some pk =>
      simp only [webhook] at h ⊢
      rw [if_pos h]
    | none =>
      cases refGet with
      | some pk =>
        simp only [webhook] at h ⊢
        rw [if_pos h]
      | none => rfl
  · intro h
    cases payGet with
    | some pk =>
      simp only [webhook] at h ⊢
      rw [if_neg h]
    | none =>
      cases refGet with
      | some pk =>
        simp only [webhook] at h ⊢
        rw [if_neg h]
      | none =>
        simp only [webhook] at h
        exact absurd rfl h
  · intro pk hpay hnone
    subst hpay
    simp only [webhook, webhookPayments_no_match tn sn now s pk payments c hnone]
    rfl
  · intro hpay href
    subst hpay
    subst href
    rfl

/-- C5 amended witness: a webhook request naming a payment id matching no
row returns 200/"OK" and changes nothing, and a parameterless request
also returns 200/"OK". -/
theorem webhook_ok_unless_reconciler_raises_witness :
    webhook (some 7) none sampleTokenNet sampleSuccNet 0 [] sampleSettings
      [samplePaymentPending] [] =
      { payments := [samplePaymentPending], refunds := [], cache := [],
        response := some "OK", err := none } ∧
    webhook none none sampleTokenNet sampleSuccNet 0 [] sampleSettings [] [] =
      { payments := [], refunds := [], cache := [], response := some "OK", err := none } :=
  ⟨(webhook_ok_unless_reconciler_raises (some 7) none sampleTokenNet sampleSuccNet 0 []
      sampleSettings [samplePaymentPending] []).2.2.1 7 rfl (by decide),
   (webhook_ok_unless_reconciler_raises none none sampleTokenNet sampleSuccNet 0 []
      sampleSettings [] []).2.2.2 rfl rfl⟩

/-- C9: the periodic sweep enqueues a reconciliation task exactly for the
pending payments and in-transit refunds of this provider created strictly
within the last 24 hours; with distinct primary keys, no payment created
24 hours ago or earlier is ever enqueued. -/
theorem register_periodic_task_window (now : Int) (payments : List OrderPayment)
    (refunds : List OrderRefund) :
    (∀ pk, pk ∈ (register_periodic_task now payments refunds).1 ↔
      ∃ p, p ∈ payments ∧ p.provider = "mtn_momo" ∧ p.state = PaymentState.pending ∧
        now - 86400 < p.created ∧ p.pk = pk) ∧
    (∀ pk, pk ∈ (register_periodic_task now payments refunds).2 ↔
      ∃ r, r ∈ refunds ∧ r.provider = "mtn_momo" ∧ r.state = RefundState.transit ∧
        now - 86400 < r.created ∧ r.pk = pk) ∧
    ((payments.map (fun p => p.pk)).Nodup →
      ∀ p ∈ payments, p.created ≤ now - 86400 →
      p.pk ∉ (register_periodic_task now payments refunds).1) := by
  refine ⟨?_, ?_, ?_⟩
  · intro pk
    simp only [register_periodic_task, List.mem_map, List.mem_filter, decide_eq_true_eq]
    constructor
    · rintro ⟨p, ⟨hp, h1, h2, h3⟩, h4⟩
      exact ⟨p, hp, h1, h2, h3, h4⟩
    · rintro ⟨p, hp, h1, h2, h3, h4⟩
      exact ⟨p, ⟨hp, h1, h2, h3⟩, h4⟩
  · intro pk
    simp only [register_periodic_task, List.mem_map, List.mem_filter, decide_eq_true_eq]
    constructor
    · rintro ⟨r, ⟨hr, h1, h2, h3⟩, h4⟩
      exact ⟨r, hr, h1, h2, h3, h4⟩
    · rintro ⟨r, hr, h1, h2, h3, h4⟩
      exact ⟨r, ⟨hr, h1, h2, h3⟩, h4⟩
  · intro hnodup p hp hold hmem
    simp only [register_periodic_task, List.mem_map, List.mem_filter,
      decide_eq_true_eq] at hmem
    obtain ⟨q, ⟨hq, _, _, hq3⟩, hq4⟩ := hmem
    have hqp : q = p := List.inj_on_of_nodup_map hnodup hq hp hq4
    rw [hqp] at hq3
    exact absurd hq3 (not_lt.mpr hold)

/-- C9 witness: with two pending payments of this provider, one created
inside the 24 hour window and one created earlier, the sweep enqueues the
recent one and not the old one. -/
theorem register_periodic_task_window_witness :
    3 ∈ (register_periodic_task 100000
      [{ pk := 3, provider := "mtn_momo", state := PaymentState.pending,
         info := [], created := 50000 },
       { pk := 4, provider := "mtn_momo", state := PaymentState.pending,
         info := [], created := 0 }] []).1 ∧
    4 ∉ (register_periodic_task 100000
      [{ pk := 3, provider := "mtn_momo", state := PaymentState.pending,
         info := [], created := 50000 },
       { pk := 4, provider := "mtn_momo", state := PaymentState.pending,
         info := [], created := 0 }] []).1 :=
  ⟨((register_periodic_task_window 100000
      [{ pk := 3, provider := "mtn_momo", state := PaymentState.pending,
         info := [], created := 50000 },
       { pk := 4, provider := "mtn_momo", state := PaymentState.pending,
         info := [], created := 0 }] []).1 3).mpr
      ⟨{ pk := 3, provider := "mtn_momo", state := PaymentState.pending,
         info := [], created := 50000 },
        by decide, by decide, by decide, by decide, by decide⟩,
   (register_periodic_task_window 100000
      [{ pk := 3, provider := "mtn_momo", state := PaymentState.pending,
         info := [], created := 50000 },
       { pk := 4, provider := "mtn_momo", state := PaymentState.pending,
         info := [], created := 0 }] []).2.2 (by decide)
      { pk := 4, provider := "mtn_momo", state := PaymentState.pending,
        info := [], created := 0 } (by decide) (by decide)⟩
